import Mathlib

/-!
Verification of the connection-management state machine of a QUIC-based
peer-to-peer transport library (quic-p2p).  This file gives a shallow
embedding of `src/connect.rs` and `src/listener.rs` — the connect path,
the application-handshake completion, the failure handler and the listen
path — together with the data model they operate on, and proves theorems
about duplicate rejection, record severing, event emission, bootstrap-cache
population and the one-success-event-per-lifetime property.

The repository modules `connection.rs`, `context.rs`, `event.rs`,
`communicate.rs`, `bootstrap_cache.rs` and `peer_config.rs` are not part of
the sources available here; the definitions taken from them are modelled
from the specification and are marked as such in their doc comments.
Side effects (wire writes, events, group terminations, spawned read loops)
are modelled as an explicit list of outputs.
-/

namespace QuicP2p

/-- A UDP socket endpoint (IP + port), the sole key for connection records;
modelled opaquely as a natural number. -/
abbrev SocketAddr := Nat

/-- DER-encoded certificate bytes, carried opaquely and compared by byte
equality; modelled as a list of bytes. -/
abbrev CertDer := List Nat

/-- Identifier standing for a live QUIC session handle (`quinn::Connection`
wrapped in `QConn`). -/
abbrev QConn := Nat

/-- Identifier standing for a connect-attempt terminator channel
(`utils::connect_terminator`). -/
abbrev TerminatorId := Nat

/-- Identifier standing for a bootstrap-group handle
(`BootstrapGroupRef`); `terminate_group` is modelled as an output. -/
abbrev GroupRef := Nat

/-- Pair of peer address and certificate bytes, uniquely identifying a
node (`NodeInfo` in the source). -/
structure NodeInfo where
  peer_addr : SocketAddr
  peer_cert_der : CertDer
deriving DecidableEq, Repr

/-- A remote participant: a full `Node` (with its certificate) or a
lightweight `Client` known only by address. -/
inductive Peer
  | Node (node_info : NodeInfo)
  | Client (peer_addr : SocketAddr)
deriving DecidableEq, Repr

/-- `NodeInfo::into::<Peer>()` — a `NodeInfo` converts to the `Node`
variant of `Peer`. -/
def NodeInfo.into (ni : NodeInfo) : Peer := Peer.Node ni

/-- Our own role, fixed at process start (`config::OurType`). -/
inductive OurType
  | Node
  | Client
deriving DecidableEq, Repr

/-- The application-level handshake payload (`wire_msg::Handshake`): a
Node initiator carries its certificate, a Client initiator carries
nothing. -/
inductive Handshake
  | Node (cert_der : CertDer)
  | Client
deriving DecidableEq, Repr

/-- Tagged wire envelope (`wire_msg::WireMsg`): handshake, endpoint-echo
request/response, or opaque user payload. -/
inductive WireMsg
  | Handshake (hs : Handshake)
  | EndpointEchoReq
  | EndpointEchoResp (addr : SocketAddr)
  | UserMsg (bytes : List Nat)
deriving DecidableEq, Repr

/-- Error kinds of the library (`error::Error`). -/
inductive Error
  | ConnectionCancelled
  | DuplicateConnectionToPeer (addr : SocketAddr)
  | NoEndpointEchoServerFound
  | CertificateParseError
  | QuicConnectError
  | QuicProtocolError
  | Serialisation
  | IoError
deriving DecidableEq, Repr

/-- The test performed by `if let Error::DuplicateConnectionToPeer(_) = e`
in `handle_connect_err`. -/
def Error.is_duplicate : Error → Bool
  | .DuplicateConnectionToPeer _ => true
  | _ => false

/-- Events delivered to the host on the event channel (`event::Event`). -/
inductive Event
  | ConnectedTo (peer : Peer)
  | BootstrappedTo (node : NodeInfo)
  | NewMessage (peer : Peer) (msg : List Nat)
  | ConnectionFailure (peer_addr : SocketAddr) (err : Error)
  | SentUserMessage (peer_addr : SocketAddr) (msg : List Nat)
  | UnsentUserMessage (peer_addr : SocketAddr) (msg : List Nat)
  | Finish
deriving DecidableEq, Repr

/-- Modelled from the spec (section 3, ToPeer): the outbound half of a
connection record; the defining module `connection.rs` is not among the
available sources.  `Initiated` buffers user sends submitted before the
QUIC handshake resolves; `Established` holds the peer certificate and the
open session. -/
inductive ToPeer
  | NoConnection
  | NotNeeded
  | Initiated (terminator : TerminatorId) (peer_cert_der : CertDer)
      (pending_sends : List WireMsg)
  | Established (peer_cert_der : CertDer) (q_conn : QConn)
deriving DecidableEq, Repr

/-- `ToPeer::is_no_connection`. -/
def ToPeer.is_no_connection : ToPeer → Bool
  | .NoConnection => true
  | _ => false

/-- `Default::default()` for `ToPeer`, used as the placeholder during
`mem::replace` in `handle_new_connection_res`. -/
instance : Inhabited ToPeer := ⟨ToPeer.NoConnection⟩

/-- Modelled from the spec (section 3, FromPeer): the inbound half of a
connection record; the defining module `connection.rs` is not among the
available sources.  `Established` buffers messages that arrive before the
outbound half is ready. -/
inductive FromPeer
  | NoConnection
  | NotNeeded
  | Established (q_conn : QConn) (pending_reads : List WireMsg)
deriving DecidableEq, Repr

/-- `FromPeer::is_no_connection`. -/
def FromPeer.is_no_connection : FromPeer → Bool
  | .NoConnection => true
  | _ => false

/-- Modelled from the spec (section 3, Connection record): per-remote-address
composite state — outbound half, inbound half, optional bootstrap-group
handle, and the flag recording that the record was created by the connect
path; `connection.rs` is not among the available sources. -/
structure Connection where
  to_peer : ToPeer
  from_peer : FromPeer
  bootstrap_group_ref : Option GroupRef
  we_contacted_peer : Bool
deriving DecidableEq, Repr

/-- Modelled from the spec: `Connection::new` produces a fresh record with
both halves at `NoConnection` and the given group handle; per section 3,
`we_contacted_peer = true` iff the record was created by the connect path,
so the creating caller supplies the flag (the code setting it lives in the
missing `connection.rs`/`communicate.rs`). -/
def Connection.new (group_ref : Option GroupRef) (we_contacted : Bool) : Connection :=
  { to_peer := ToPeer.NoConnection
    from_peer := FromPeer.NoConnection
    bootstrap_group_ref := group_ref
    we_contacted_peer := we_contacted }

/-- The process-wide context (`context::Context`), restricted to the fields
the verified paths touch: our role, our own certificate bytes, the
connections table keyed by peer address, and the bootstrap cache. -/
structure Ctx where
  our_type : OurType
  our_complete_cert_der : CertDer
  connections : SocketAddr → Option Connection
  bootstrap_cache : List NodeInfo

/-- Point update of the connections table (insertion with `some`, removal
with `none`). -/
def updateConn (conns : SocketAddr → Option Connection) (a : SocketAddr)
    (v : Option Connection) : SocketAddr → Option Connection :=
  fun x => if x = a then v else conns x

/-- Observable side effects of a state transition: an event on the event
channel, a wire message written to a peer session, a bootstrap-group
termination, or the start of a stream-read loop (`read_from_peer`). -/
inductive Output
  | event (ev : Event)
  | write (peer_addr : SocketAddr) (msg : WireMsg)
  | terminate_group (g : GroupRef) (success : Bool)
  | read_from_peer (peer_addr : SocketAddr)
deriving DecidableEq, Repr

/-- `communicate::write_to_peer_connection` — modelled as the write output
it performs on the session of the given peer. -/
def write_to_peer_connection (peer_addr : SocketAddr) (msg : WireMsg) : Output :=
  Output.write peer_addr msg

/-- The address a `Peer` is reached at. -/
def Peer.addr : Peer → SocketAddr
  | .Node ni => ni.peer_addr
  | .Client a => a

/-- Bootstrap-cache capacity (the spec requires a fixed capacity of at
least 64). -/
def bootstrapCacheCapacity : Nat := 64

/-- Modelled from the spec (section 3, Bootstrap cache):
`bootstrap_cache.add_peer` — move-to-back on re-insertion, evict from the
front on overflow; `bootstrap_cache.rs` is not among the available
sources. -/
def add_peer (cache : List NodeInfo) (ni : NodeInfo) : List NodeInfo :=
  let moved := cache.filter (fun x => decide (x ≠ ni)) ++ [ni]
  if bootstrapCacheCapacity < moved.length then
    moved.drop (moved.length - bootstrapCacheCapacity)
  else moved

/-- Modelled from the spec (section 4.6): `communicate::dispatch_wire_msg`
applied to one buffered message of a fully established record;
`communicate.rs` is not among the available sources.  Dispatch replies to
an echo request, turns a user payload into a `NewMessage` event, and
handles handshake / echo-response messages without producing outputs; it
does not modify the connections table or the bootstrap cache. -/
def dispatch_wire_msg (peer : Peer) (msg : WireMsg) : List Output :=
  match msg with
  | .Handshake _ => []
  | .EndpointEchoReq => [Output.write peer.addr (WireMsg.EndpointEchoResp peer.addr)]
  | .EndpointEchoResp _ => []
  | .UserMsg bytes => [Output.event (Event.NewMessage peer bytes)]

/-- Modelled from the spec (sections 4.7 and 7): the single
`ConnectionFailure` event fired for a failed connect attempt — the event
plumbing lives in the missing `connection.rs`/`event.rs`; per the spec it
fires for every connect error other than `DuplicateConnectionToPeer`. -/
def connect_failure_events (peer_addr : SocketAddr) (e : Error) : List Output :=
  [Output.event (Event.ConnectionFailure peer_addr e)]

/-- Shallow embedding of `handle_connect_err` (src/connect.rs, lines
262-283): a `DuplicateConnectionToPeer` error is absorbed silently;
any other error removes the record for `peer_addr` from the connections
table (severing both halves) and fires the `ConnectionFailure` event
(`connect_failure_events`). -/
def handle_connect_err (peer_addr : SocketAddr) (e : Error) (c : Ctx) :
    Ctx × List Output :=
  if e.is_duplicate then (c, [])
  else
    ({ c with connections := updateConn c.connections peer_addr none },
     connect_failure_events peer_addr e)

/-- Result of a `connect_to` call: the new context, the outputs produced,
the synchronous return value, and whether the call panicked (the
`panic!` on a Client record with a live inbound half). -/
structure ConnectToResult where
  ctx : Ctx
  outputs : List Output
  result : Except Error Unit
  panicked : Bool

/-- Shallow embedding of `connect_to` (src/connect.rs, lines 25-113).
External outcomes are passed as parameters: `cfg_err` is the result of
`peer_config::new_client_cfg` on the candidate certificate (a module not
among the available sources), `connect_with_err` the synchronous result of
`quic_ep().connect_with`, and `terminator` the fresh terminator identity.
The bootstrap-group maker is modelled by the group handle
`add_member_and_get_group_ref` returns. -/
def connect_to (peer_info : NodeInfo) (send_after_connect : Option WireMsg)
    (maker : Option GroupRef) (terminator : TerminatorId)
    (cfg_err : Option Error) (connect_with_err : Option Error) (c : Ctx) :
    ConnectToResult :=
  let peer_addr := peer_info.peer_addr
  match cfg_err with
  | some e =>
    let r := handle_connect_err peer_addr e c
    ⟨r.1, r.2, Except.error e, false⟩
  | none =>
    let conn :=
      match c.connections peer_addr with
      | some conn => conn
      | none => Connection.new maker true
    if conn.to_peer.is_no_connection then
      if c.our_type = OurType.Client ∧ conn.from_peer.is_no_connection = false then
        -- `panic!("Logic Error - cannot expect Network to reverse connect to a client")`;
        -- the panic can only fire on a pre-existing record, so the upsert is the identity
        ⟨c, [], Except.ok (), true⟩
      else
        let conn :=
          if c.our_type = OurType.Client then
            { conn with from_peer := FromPeer.NotNeeded }
          else conn
        let conn :=
          if conn.bootstrap_group_ref.isNone then
            { conn with bootstrap_group_ref := maker }
          else conn
        let pending_sends := send_after_connect.toList
        let conn :=
          { conn with
            to_peer := ToPeer.Initiated terminator peer_info.peer_cert_der pending_sends }
        let c1 := { c with connections := updateConn c.connections peer_addr (some conn) }
        match connect_with_err with
        | some e =>
          let r := handle_connect_err peer_addr e c1
          ⟨r.1, r.2, Except.error e, false⟩
        | none => ⟨c1, [], Except.ok (), false⟩
    else
      let e := Error.DuplicateConnectionToPeer peer_addr
      let c1 := { c with connections := updateConn c.connections peer_addr (some conn) }
      let r := handle_connect_err peer_addr e c1
      ⟨r.1, r.2, Except.error e, false⟩

/-- Result of the application-handshake completion: the new context, the
outputs produced, and whether the `unreachable!` on a non-`Initiated`
outbound half fired. -/
structure HandshakeResult where
  ctx : Ctx
  outputs : List Output
  panicked : Bool

/-- Shallow embedding of `handle_new_connection_res` (src/connect.rs, lines
115-260): on QUIC failure delegate to `handle_connect_err`; on success,
silently drop the session if the record is gone, insert into the bootstrap
cache when `we_contacted_peer`, branch on the inbound half to send the
application handshake and fire the one success event, drain buffered
reads, flush `pending_sends` in FIFO order and commit the outbound half to
`Established`. -/
def handle_new_connection_res (peer_addr : SocketAddr)
    (new_peer_conn_res : Except Error QConn) (c : Ctx) : HandshakeResult :=
  match new_peer_conn_res with
  | .error e =>
    let r := handle_connect_err peer_addr e c
    ⟨r.1, r.2, false⟩
  | .ok q_conn =>
    match c.connections peer_addr with
    | none => ⟨c, [], false⟩
    | some conn =>
      match conn.to_peer with
      | ToPeer.Initiated _terminator peer_cert_der pending_sends =>
        let node_info : NodeInfo := ⟨peer_addr, peer_cert_der⟩
        let cache :=
          if conn.we_contacted_peer then add_peer c.bootstrap_cache node_info
          else c.bootstrap_cache
        match conn.from_peer with
        | FromPeer.NoConnection =>
          let outs :=
            write_to_peer_connection peer_addr
                (WireMsg.Handshake (Handshake.Node c.our_complete_cert_der))
              :: pending_sends.map (write_to_peer_connection peer_addr)
          let conn1 := { conn with to_peer := ToPeer.Established peer_cert_der q_conn }
          ⟨{ c with
              connections := updateConn c.connections peer_addr (some conn1)
              bootstrap_cache := cache },
            outs, false⟩
        | FromPeer.NotNeeded =>
          let branch :=
            match conn.bootstrap_group_ref with
            | some g =>
              ([Output.terminate_group g true,
                Output.event (Event.BootstrappedTo node_info)],
               ({ conn with bootstrap_group_ref := none } : Connection))
            | none =>
              ([Output.event (Event.ConnectedTo node_info.into)], conn)
          let outs :=
            write_to_peer_connection peer_addr (WireMsg.Handshake Handshake.Client)
              :: branch.1
              ++ pending_sends.map (write_to_peer_connection peer_addr)
              ++ [Output.read_from_peer peer_addr]
          let conn1 :=
            { branch.2 with to_peer := ToPeer.Established peer_cert_der q_conn }
          ⟨{ c with
              connections := updateConn c.connections peer_addr (some conn1)
              bootstrap_cache := cache },
            outs, false⟩
        | FromPeer.Established q_in pending_reads =>
          let branch :=
            match conn.bootstrap_group_ref with
            | some g =>
              ([Output.terminate_group g true,
                Output.event (Event.BootstrappedTo node_info)],
               ({ conn with bootstrap_group_ref := none } : Connection))
            | none =>
              ([Output.event (Event.ConnectedTo node_info.into)], conn)
          let peer := Peer.Node node_info
          let outs :=
            branch.1
              ++ pending_reads.flatMap (dispatch_wire_msg peer)
              ++ pending_sends.map (write_to_peer_connection peer_addr)
          let conn1 :=
            { branch.2 with
              to_peer := ToPeer.Established peer_cert_der q_conn
              from_peer := FromPeer.Established q_in [] }
          ⟨{ c with
              connections := updateConn c.connections peer_addr (some conn1)
              bootstrap_cache := cache },
            outs, false⟩
      | _ =>
        -- `unreachable!("TODO We can handle new connection only because it was previously initiated")`
        ⟨c, [], true⟩

/-- Shallow embedding of `handle_new_conn` (src/listener.rs, lines 31-92):
upsert a record for the remote address (created with no group handle and
`we_contacted_peer = false`); if the inbound half is `NoConnection`,
install the session with an empty read buffer, fire the success event when
the outbound half is already `Established`, and start the read loop;
otherwise drop the duplicate arrival silently. -/
def handle_new_conn (q_conn : QConn) (peer_addr : SocketAddr) (c : Ctx) :
    Ctx × List Output :=
  let conn :=
    match c.connections peer_addr with
    | some conn => conn
    | none => Connection.new none false
  if conn.from_peer.is_no_connection then
    let conn1 := { conn with from_peer := FromPeer.Established q_conn [] }
    match conn.to_peer with
    | ToPeer.Established peer_cert_der _q =>
      let node_info : NodeInfo := ⟨peer_addr, peer_cert_der⟩
      let branch :=
        match conn1.bootstrap_group_ref with
        | some g =>
          ([Output.terminate_group g true,
            Output.event (Event.BootstrappedTo node_info)],
           ({ conn1 with bootstrap_group_ref := none } : Connection))
        | none =>
          ([Output.event (Event.ConnectedTo node_info.into)], conn1)
      ({ c with connections := updateConn c.connections peer_addr (some branch.2) },
       branch.1 ++ [Output.read_from_peer peer_addr])
    | _ =>
      ({ c with connections := updateConn c.connections peer_addr (some conn1) },
       [Output.read_from_peer peer_addr])
  else
    (c, [])

/-- Modelled from the spec (sections 4.1 and 8, item 5): `send` on a record
whose outbound half is still `Initiated` appends the message to
`pending_sends` in submission order; on an `Established` half it writes
immediately; otherwise the message cannot be delivered and is reported via
`UnsentUserMessage`; `communicate.rs` is not among the available
sources. -/
def buffer_user_send (peer_addr : SocketAddr) (msg : WireMsg) (c : Ctx) :
    Ctx × List Output :=
  match c.connections peer_addr with
  | none => (c, [Output.event (Event.UnsentUserMessage peer_addr [])])
  | some conn =>
    match conn.to_peer with
    | ToPeer.Initiated t cert pending =>
      ({ c with
          connections := updateConn c.connections peer_addr
            (some { conn with to_peer := ToPeer.Initiated t cert (pending ++ [msg]) }) },
       [])
    | ToPeer.Established _ _ => (c, [write_to_peer_connection peer_addr msg])
    | _ => (c, [Output.event (Event.UnsentUserMessage peer_addr [])])

/-- Number of occurrences of the exact event `ConnectionFailure(a, e)`
among a transition's outputs. -/
def count_conn_failure (a : SocketAddr) (e : Error) (outs : List Output) : Nat :=
  outs.count (Output.event (Event.ConnectionFailure a e))

/-- Recognizes the two successful-connection events, `ConnectedTo` and
`BootstrappedTo`. -/
def is_success_event : Output → Bool
  | .event (.ConnectedTo _) => true
  | .event (.BootstrappedTo _) => true
  | _ => false

/-- Number of successful-connection events among a transition's outputs. -/
def count_success (outs : List Output) : Nat :=
  (outs.filter is_success_event).length

/-- A record is success-ready when its outbound half is `Established` and
its inbound half is past `NoConnection` — exactly the states reached by
firing a success event. -/
def success_ready (conn : Connection) : Bool :=
  (match conn.to_peer with
   | ToPeer.Established _ _ => true
   | _ => false)
  && !conn.from_peer.is_no_connection

/-- Potential function for the one-success-event-per-lifetime argument: a
missing or not-yet-ready record scores 0, a success-ready record scores 1. -/
def succ_score : Option Connection → Nat
  | none => 0
  | some conn => if success_ready conn then 1 else 0

/-- Projection of a transition's outputs onto the wire messages written to
the session of address `a`, in order. -/
def writes_to (a : SocketAddr) (outs : List Output) : List WireMsg :=
  outs.filterMap fun o =>
    match o with
    | Output.write x m => if x = a then some m else none
    | _ => none

/-- One transition of the connection-management machine targeting address
`a`: a `connect_to` call, the resolution of the outbound QUIC handshake,
an inbound arrival on the listen path, a direct failure/cancellation
handled by `handle_connect_err`, or a user `send`. -/
inductive Step (a : SocketAddr) : Ctx → List Output → Ctx → Prop
  | connect (pi : NodeInfo) (sac : Option WireMsg) (maker : Option GroupRef)
      (t : TerminatorId) (cfgE cwE : Option Error) (c : Ctx) :
      pi.peer_addr = a →
      Step a c (connect_to pi sac maker t cfgE cwE c).outputs
        (connect_to pi sac maker t cfgE cwE c).ctx
  | handshake_result (res : Except Error QConn) (c : Ctx) :
      Step a c (handle_new_connection_res a res c).outputs
        (handle_new_connection_res a res c).ctx
  | inbound (q : QConn) (c : Ctx) :
      Step a c (handle_new_conn q a c).2 (handle_new_conn q a c).1
  | connect_err (e : Error) (c : Ctx) :
      Step a c (handle_connect_err a e c).2 (handle_connect_err a e c).1
  | user_send (m : WireMsg) (c : Ctx) :
      Step a c (buffer_user_send a m c).2 (buffer_user_send a m c).1

/-- A run of transitions targeting address `a` during which the record for
`a` is never removed — i.e. a run inside a single record lifetime (a
removal ends the lifetime; a later upsert starts a new one).  The outputs
of the run are the concatenation of the step outputs. -/
inductive LifeTrace (a : SocketAddr) : Ctx → List Output → Ctx → Prop
  | nil (c : Ctx) : LifeTrace a c [] c
  | cons (c c1 c2 : Ctx) (outs rest : List Output) :
      Step a c outs c1 →
      ((c.connections a).isSome → (c1.connections a).isSome) →
      LifeTrace a c1 rest c2 →
      LifeTrace a c (outs ++ rest) c2

/-- The empty connections table. -/
def emptyConnections : SocketAddr → Option Connection := fun _ => none

/-- A concrete context with no records, used to evaluate the definitions on
closed inputs. -/
def ctxEmpty : Ctx :=
  { our_type := OurType.Node
    our_complete_cert_der := [7, 7]
    connections := emptyConnections
    bootstrap_cache := [] }

/-- A concrete record whose outbound half is `Initiated` (with one buffered
send) and whose inbound half is `NotNeeded`. -/
def connInitNotNeeded : Connection :=
  { to_peer := ToPeer.Initiated 1 [3, 4] [WireMsg.UserMsg [9]]
    from_peer := FromPeer.NotNeeded
    bootstrap_group_ref := none
    we_contacted_peer := true }

/-- A concrete record whose outbound half is `Established`. -/
def connEstablished : Connection :=
  { to_peer := ToPeer.Established [3, 4] 5
    from_peer := FromPeer.NoConnection
    bootstrap_group_ref := none
    we_contacted_peer := true }

/-- A concrete record whose inbound half is `Established`. -/
def connInboundOnly : Connection :=
  { to_peer := ToPeer.NoConnection
    from_peer := FromPeer.Established 6 []
    bootstrap_group_ref := none
    we_contacted_peer := false }

/-- A concrete context holding `connInitNotNeeded` at address 0. -/
def ctxInitNotNeeded : Ctx :=
  { ctxEmpty with connections := updateConn emptyConnections 0 (some connInitNotNeeded) }

/-- A concrete context holding `connEstablished` at address 0. -/
def ctxEstablished : Ctx :=
  { ctxEmpty with connections := updateConn emptyConnections 0 (some connEstablished) }

/-- A concrete context holding `connInboundOnly` at address 0. -/
def ctxInboundOnly : Ctx :=
  { ctxEmpty with connections := updateConn emptyConnections 0 (some connInboundOnly) }

/-! ## General lemmas about the table update and the output counters -/

theorem updateConn_self (f : SocketAddr → Option Connection) (a : SocketAddr)
    (v : Option Connection) : updateConn f a v a = v := by
  simp [updateConn]

theorem updateConn_ne (f : SocketAddr → Option Connection) (a x : SocketAddr)
    (v : Option Connection) (h : x ≠ a) : updateConn f a v x = f x := by
  simp [updateConn, h]

/-! ## C10: a successful handshake for a forgotten record is discarded -/

/-- C10: if the QUIC handshake for `peer_addr` completes successfully but the
connections table no longer holds a record for `peer_addr`,
`handle_new_connection_res` leaves the context completely unchanged and
emits no output: the successful session is silently discarded. -/
theorem orphan_handshake_success_discarded (a : SocketAddr) (q : QConn) (c : Ctx)
    (hc : c.connections a = none) :
    handle_new_connection_res a (Except.ok q) c = ⟨c, [], false⟩ := by
  simp [handle_new_connection_res, hc]

/-- Closed instance of `orphan_handshake_success_discarded`. -/
theorem orphan_handshake_success_discarded_witness :
    handle_new_connection_res 0 (Except.ok 1) ctxEmpty = ⟨ctxEmpty, [], false⟩ :=
  orphan_handshake_success_discarded 0 1 ctxEmpty rfl

/-! ## C3: a non-duplicate connect failure severs the whole record -/

/-- C3: whenever an outbound attempt to `peer_addr` fails for any reason
other than `DuplicateConnectionToPeer` — directly through
`handle_connect_err`, through a failed QUIC handshake resolution, or
through a failing `connect_to` call — the connection record for
`peer_addr` is removed entirely from the connections table (regardless of
the state of its inbound half), while the records of every other address
are left unchanged. -/
theorem failed_connect_severs_whole_record (a : SocketAddr) (e : Error) (c : Ctx)
    (hdup : e.is_duplicate = false) :
    ((handle_connect_err a e c).1.connections a = none
      ∧ (∀ x, x ≠ a → (handle_connect_err a e c).1.connections x = c.connections x))
    ∧ ((handle_new_connection_res a (Except.error e) c).ctx.connections a = none
      ∧ (∀ x, x ≠ a →
          (handle_new_connection_res a (Except.error e) c).ctx.connections x
            = c.connections x))
    ∧ (∀ pi sac maker t cfgE cwE, pi.peer_addr = a →
        (connect_to pi sac maker t cfgE cwE c).result = Except.error e →
        (connect_to pi sac maker t cfgE cwE c).ctx.connections a = none
          ∧ (∀ x, x ≠ a →
              (connect_to pi sac maker t cfgE cwE c).ctx.connections x
                = c.connections x)) := by
  refine ⟨⟨?_, ?_⟩, ⟨?_, ?_⟩, ?_⟩
  · simp [handle_connect_err, hdup, updateConn_self]
  · intro x hx
    simp [handle_connect_err, hdup, updateConn_ne _ _ _ _ hx]
  · simp [handle_new_connection_res, handle_connect_err, hdup, updateConn_self]
  · intro x hx
    simp [handle_new_connection_res, handle_connect_err, hdup,
      updateConn_ne _ _ _ _ hx]
  · intro pi sac maker t cfgE cwE ha hres
    subst ha
    cases cfgE with
    | some e0 =>
      have he : e0 = e := by
        simpa [connect_to] using hres
      subst he
      constructor
      · simp [connect_to, handle_connect_err, hdup, updateConn_self]
      · intro x hx
        simp [connect_to, handle_connect_err, hdup, updateConn_ne _ _ _ _ hx]
    | none =>
      by_cases hnc :
          (match c.connections pi.peer_addr with
            | some conn => conn
            | none => Connection.new maker true).to_peer.is_no_connection = true
      · by_cases hpanic :
            c.our_type = OurType.Client
              ∧ (match c.connections pi.peer_addr with
                  | some conn => conn
                  | none => Connection.new maker true).from_peer.is_no_connection = false
        · exfalso
          simp [connect_to, hnc, hpanic] at hres
        · cases cwE with
          | some e0 =>
            have he : e0 = e := by
              simpa [connect_to, hnc, hpanic] using hres
            subst he
            constructor
            · simp [connect_to, hnc, hpanic, handle_connect_err, hdup, updateConn_self]
            · intro x hx
              simp [connect_to, hnc, hpanic, handle_connect_err, hdup,
                updateConn_ne _ _ _ _ hx]
          | none =>
            exfalso
            simp [connect_to, hnc, hpanic] at hres
      · have he : Error.DuplicateConnectionToPeer pi.peer_addr = e := by
          simpa [connect_to, hnc, handle_connect_err] using hres
        exfalso
        rw [← he] at hdup
        simp [Error.is_duplicate] at hdup

/-- Closed instance of `failed_connect_severs_whole_record`: severing an
established record with a live inbound half removes it and leaves a record
at another address untouched. -/
theorem failed_connect_severs_whole_record_witness :
    (handle_connect_err 0 Error.ConnectionCancelled ctxInboundOnly).1.connections 0 = none
      ∧ (handle_connect_err 0 Error.ConnectionCancelled ctxInboundOnly).1.connections 1
          = ctxInboundOnly.connections 1 :=
  ⟨((failed_connect_severs_whole_record 0 Error.ConnectionCancelled ctxInboundOnly
      rfl).1).1,
   ((failed_connect_severs_whole_record 0 Error.ConnectionCancelled ctxInboundOnly
      rfl).1).2 1 (by decide)⟩

/-! ## C2: duplicate connect requests are rejected without teardown -/

/-- C2: a `connect_to` call (whose certificate-config derivation succeeds)
on an address whose connection record has `to_peer` different from
`NoConnection` returns `DuplicateConnectionToPeer` and performs no further
work: every record — in particular the existing one, with both halves, its
buffers and its bootstrap-group ref — is unchanged, nothing is removed, no
output is produced, and the call does not panic. -/
theorem duplicate_connect_rejected_without_teardown
    (pi : NodeInfo) (sac : Option WireMsg) (maker : Option GroupRef)
    (t : TerminatorId) (cwE : Option Error) (c : Ctx) (conn : Connection)
    (hc : c.connections pi.peer_addr = some conn)
    (hto : conn.to_peer.is_no_connection = false) :
    (connect_to pi sac maker t none cwE c).result
        = Except.error (Error.DuplicateConnectionToPeer pi.peer_addr)
    ∧ (∀ x, (connect_to pi sac maker t none cwE c).ctx.connections x
        = c.connections x)
    ∧ (connect_to pi sac maker t none cwE c).ctx.bootstrap_cache
        = c.bootstrap_cache
    ∧ (connect_to pi sac maker t none cwE c).outputs = []
    ∧ (connect_to pi sac maker t none cwE c).panicked = false := by
  refine ⟨?_, ?_, ?_, ?_, ?_⟩
  · simp [connect_to, hc, hto, handle_connect_err, Error.is_duplicate]
  · intro x
    by_cases hx : x = pi.peer_addr
    · subst hx
      simp [connect_to, hc, hto, handle_connect_err, Error.is_duplicate,
        updateConn_self]
    · simp [connect_to, hc, hto, handle_connect_err, Error.is_duplicate,
        updateConn_ne _ _ _ _ hx]
  · simp [connect_to, hc, hto, handle_connect_err, Error.is_duplicate]
  · simp [connect_to, hc, hto, handle_connect_err, Error.is_duplicate]
  · simp [connect_to, hc, hto, handle_connect_err, Error.is_duplicate]

/-- Closed instance of `duplicate_connect_rejected_without_teardown` on a
record whose outbound half is already `Established`. -/
theorem duplicate_connect_rejected_without_teardown_witness :
    (connect_to ⟨0, [3, 4]⟩ none none 2 none none ctxEstablished).result
        = Except.error (Error.DuplicateConnectionToPeer 0)
      ∧ (connect_to ⟨0, [3, 4]⟩ none none 2 none none ctxEstablished).ctx.connections 0
          = ctxEstablished.connections 0 :=
  ⟨(duplicate_connect_rejected_without_teardown ⟨0, [3, 4]⟩ none none 2 none
      ctxEstablished connEstablished rfl rfl).1,
   (duplicate_connect_rejected_without_teardown ⟨0, [3, 4]⟩ none none 2 none
      ctxEstablished connEstablished rfl rfl).2.1 0⟩

/-! ## C1: every failing connect emits exactly one ConnectionFailure -/

/-- C1: for every `connect_to` call that returns an error other than
`DuplicateConnectionToPeer` — including a synchronous certificate-config
failure — the outputs are exactly the one event
`ConnectionFailure(peer_addr, error)`; a duplicate error produces no
output; and the asynchronous QUIC handshake failure or cancellation paths,
which run through `handle_new_connection_res` / `handle_connect_err`, also
emit exactly that one event. -/
theorem connect_failure_event_fires_exactly_once
    (pi : NodeInfo) (sac : Option WireMsg) (maker : Option GroupRef)
    (t : TerminatorId) (cfgE cwE : Option Error) (c : Ctx) (e : Error) :
    ((connect_to pi sac maker t cfgE cwE c).result = Except.error e →
      (e.is_duplicate = false →
        (connect_to pi sac maker t cfgE cwE c).outputs
          = connect_failure_events pi.peer_addr e)
      ∧ (e.is_duplicate = true →
        (connect_to pi sac maker t cfgE cwE c).outputs = []))
    ∧ (e.is_duplicate = false →
        (handle_new_connection_res pi.peer_addr (Except.error e) c).outputs
          = connect_failure_events pi.peer_addr e)
    ∧ (e.is_duplicate = false →
        (handle_connect_err pi.peer_addr e c).2
          = connect_failure_events pi.peer_addr e) := by
  refine ⟨?_, ?_, ?_⟩
  · intro hres
    constructor
    · intro hdup
      cases cfgE with
      | some e0 =>
        have he : e0 = e := by simpa [connect_to] using hres
        subst he
        simp [connect_to, handle_connect_err, hdup]
      | none =>
        by_cases hnc :
            (match c.connections pi.peer_addr with
              | some conn => conn
              | none => Connection.new maker true).to_peer.is_no_connection = true
        · by_cases hpanic :
              c.our_type = OurType.Client
                ∧ (match c.connections pi.peer_addr with
                    | some conn => conn
                    | none => Connection.new maker true).from_peer.is_no_connection
                      = false
          · exfalso
            simp [connect_to, hnc, hpanic] at hres
          · cases cwE with
            | some e0 =>
              have he : e0 = e := by
                simpa [connect_to, hnc, hpanic] using hres
              subst he
              simp [connect_to, hnc, hpanic, handle_connect_err, hdup]
            | none =>
              exfalso
              simp [connect_to, hnc, hpanic] at hres
        · have he : Error.DuplicateConnectionToPeer pi.peer_addr = e := by
            simpa [connect_to, hnc, handle_connect_err] using hres
          exfalso
          rw [← he] at hdup
          simp [Error.is_duplicate] at hdup
    · intro hdup
      cases cfgE with
      | some e0 =>
        have he : e0 = e := by simpa [connect_to] using hres
        subst he
        simp [connect_to, handle_connect_err, hdup]
      | none =>
        by_cases hnc :
            (match c.connections pi.peer_addr with
              | some conn => conn
              | none => Connection.new maker true).to_peer.is_no_connection = true
        · by_cases hpanic :
              c.our_type = OurType.Client
                ∧ (match c.connections pi.peer_addr with
                    | some conn => conn
                    | none => Connection.new maker true).from_peer.is_no_connection
                      = false
          · exfalso
            simp [connect_to, hnc, hpanic] at hres
          · cases cwE with
            | some e0 =>
              have he : e0 = e := by
                simpa [connect_to, hnc, hpanic] using hres
              subst he
              simp [connect_to, hnc, hpanic, handle_connect_err, hdup]
            | none =>
              exfalso
              simp [connect_to, hnc, hpanic] at hres
        · simp [connect_to, hnc, handle_connect_err, Error.is_duplicate]
  · intro hdup
    simp [handle_new_connection_res, handle_connect_err, hdup]
  · intro hdup
    simp [handle_connect_err, hdup]

/-- Closed instance of `connect_failure_event_fires_exactly_once`: a
synchronous certificate-config failure emits the one `ConnectionFailure`
event. -/
theorem connect_failure_event_fires_exactly_once_witness :
    (connect_to ⟨0, [1]⟩ none none 1 (some Error.CertificateParseError) none
        ctxEmpty).outputs
      = connect_failure_events 0 Error.CertificateParseError :=
  ((connect_failure_event_fires_exactly_once ⟨0, [1]⟩ none none 1
      (some Error.CertificateParseError) none ctxEmpty
      Error.CertificateParseError).1 rfl).1 rfl

/-! ## C4: only the outbound completion path populates the bootstrap cache -/

theorem handle_connect_err_cache (a : SocketAddr) (e : Error) (c : Ctx) :
    (handle_connect_err a e c).1.bootstrap_cache = c.bootstrap_cache := by
  unfold handle_connect_err
  split <;> rfl

theorem handle_new_conn_cache (q : QConn) (a : SocketAddr) (c : Ctx) :
    (handle_new_conn q a c).1.bootstrap_cache = c.bootstrap_cache := by
  simp only [handle_new_conn]
  repeat' split
  all_goals rfl

theorem connect_to_cache (pi : NodeInfo) (sac : Option WireMsg)
    (maker : Option GroupRef) (t : TerminatorId) (cfgE cwE : Option Error)
    (c : Ctx) :
    (connect_to pi sac maker t cfgE cwE c).ctx.bootstrap_cache
      = c.bootstrap_cache := by
  simp only [connect_to]
  repeat' split
  all_goals simp [handle_connect_err_cache]

/-- C4: a `NodeInfo` is inserted into the bootstrap cache only on the
outbound (connect) completion path and only when the record's
`we_contacted_peer` flag is true; the listen path, the `connect_to` call
itself, and the failure handler never change the cache, so inbound-only
arrivals never populate it. -/
theorem bootstrap_cache_populated_only_by_outbound :
    (∀ (a : SocketAddr) (res : Except Error QConn) (c : Ctx),
      (handle_new_connection_res a res c).ctx.bootstrap_cache = c.bootstrap_cache
      ∨ ∃ conn, c.connections a = some conn ∧ conn.we_contacted_peer = true
          ∧ ∃ cert, (handle_new_connection_res a res c).ctx.bootstrap_cache
              = add_peer c.bootstrap_cache ⟨a, cert⟩)
    ∧ (∀ (q : QConn) (a : SocketAddr) (c : Ctx),
        (handle_new_conn q a c).1.bootstrap_cache = c.bootstrap_cache)
    ∧ (∀ (pi : NodeInfo) (sac : Option WireMsg) (maker : Option GroupRef)
        (t : TerminatorId) (cfgE cwE : Option Error) (c : Ctx),
        (connect_to pi sac maker t cfgE cwE c).ctx.bootstrap_cache
          = c.bootstrap_cache)
    ∧ (∀ (a : SocketAddr) (e : Error) (c : Ctx),
        (handle_connect_err a e c).1.bootstrap_cache = c.bootstrap_cache) := by
  refine ⟨?_, handle_new_conn_cache, connect_to_cache, handle_connect_err_cache⟩
  intro a res c
  cases res with
  | error e =>
    left
    exact handle_connect_err_cache a e c
  | ok q =>
    cases hc : c.connections a with
    | none => left; simp [handle_new_connection_res, hc]
    | some conn =>
      cases hto : conn.to_peer with
      | Initiated t cert ps =>
        cases hwc : conn.we_contacted_peer with
        | false =>
          left
          cases hfp : conn.from_peer <;>
            simp [handle_new_connection_res, hc, hto, hwc, hfp]
        | true =>
          right
          refine ⟨conn, rfl, hwc, cert, ?_⟩
          cases hfp : conn.from_peer <;>
            simp [handle_new_connection_res, hc, hto, hwc, hfp]
      | NoConnection => left; simp [handle_new_connection_res, hc, hto]
      | NotNeeded => left; simp [handle_new_connection_res, hc, hto]
      | Established cert qc => left; simp [handle_new_connection_res, hc, hto]

/-! ## C8: an inbound session is installed iff the inbound half was empty -/

/-- C8: for an inbound session arriving on the listen path, the session is
installed as `from_peer = Established` with an empty read buffer if and
only if the record's inbound half was `NoConnection` (or the record did
not exist and was freshly upserted); otherwise the arrival is dropped
silently, with every record left entirely unchanged and no output
produced. -/
theorem inbound_install_iff_from_peer_no_connection
    (q : QConn) (a : SocketAddr) (c : Ctx) :
    (∀ conn, c.connections a = some conn →
      (conn.from_peer = FromPeer.NoConnection →
        ∃ conn1, (handle_new_conn q a c).1.connections a = some conn1
          ∧ conn1.from_peer = FromPeer.Established q []
          ∧ conn1.to_peer = conn.to_peer
          ∧ conn1.we_contacted_peer = conn.we_contacted_peer)
      ∧ (conn.from_peer ≠ FromPeer.NoConnection →
        (∀ x, (handle_new_conn q a c).1.connections x = c.connections x)
          ∧ (handle_new_conn q a c).1.bootstrap_cache = c.bootstrap_cache
          ∧ (handle_new_conn q a c).2 = []))
    ∧ (c.connections a = none →
      ∃ conn1, (handle_new_conn q a c).1.connections a = some conn1
        ∧ conn1.from_peer = FromPeer.Established q []
        ∧ conn1.to_peer = ToPeer.NoConnection) := by
  constructor
  · intro conn hc
    constructor
    · intro hfp
      cases hto : conn.to_peer with
      | Established cert qc =>
        cases hg : conn.bootstrap_group_ref with
        | some g =>
          exact ⟨{ conn with
              from_peer := FromPeer.Established q []
              bootstrap_group_ref := none },
            by simp [handle_new_conn, hc, hfp, hto, hg,
                FromPeer.is_no_connection, updateConn_self],
            rfl, hto, rfl⟩
        | none =>
          exact ⟨{ conn with from_peer := FromPeer.Established q [] },
            by simp [handle_new_conn, hc, hfp, hto, hg,
                FromPeer.is_no_connection, updateConn_self],
            rfl, hto, rfl⟩
      | NoConnection =>
        exact ⟨{ conn with from_peer := FromPeer.Established q [] },
          by simp [handle_new_conn, hc, hfp, hto,
              FromPeer.is_no_connection, updateConn_self],
          rfl, hto, rfl⟩
      | NotNeeded =>
        exact ⟨{ conn with from_peer := FromPeer.Established q [] },
          by simp [handle_new_conn, hc, hfp, hto,
              FromPeer.is_no_connection, updateConn_self],
          rfl, hto, rfl⟩
      | Initiated t cert ps =>
        exact ⟨{ conn with from_peer := FromPeer.Established q [] },
          by simp [handle_new_conn, hc, hfp, hto,
              FromPeer.is_no_connection, updateConn_self],
          rfl, hto, rfl⟩
    · intro hfp
      have hb : conn.from_peer.is_no_connection = false := by
        cases hfpc : conn.from_peer with
        | NoConnection => exact absurd hfpc hfp
        | NotNeeded => rfl
        | Established qc prs => rfl
      refine ⟨fun x => ?_, ?_, ?_⟩ <;> simp [handle_new_conn, hc, hb]
  · intro hc
    exact ⟨{ Connection.new none false with from_peer := FromPeer.Established q [] },
      by simp [handle_new_conn, hc, Connection.new, FromPeer.is_no_connection,
          updateConn_self],
      rfl, rfl⟩

/-- Closed instance of `inbound_install_iff_from_peer_no_connection`: an
arrival on a record whose inbound half is already `Established` changes
nothing and emits nothing. -/
theorem inbound_install_iff_from_peer_no_connection_witness :
    (handle_new_conn 9 0 ctxInboundOnly).1.connections 0
        = ctxInboundOnly.connections 0
      ∧ (handle_new_conn 9 0 ctxInboundOnly).2 = [] :=
  ⟨(((inbound_install_iff_from_peer_no_connection 9 0 ctxInboundOnly).1
      connInboundOnly rfl).2 (by decide)).1 0,
   (((inbound_install_iff_from_peer_no_connection 9 0 ctxInboundOnly).1
      connInboundOnly rfl).2 (by decide)).2.2⟩

/-! ## C9: a Client connect panics on a live inbound half, else NotNeeded -/

/-- C9: when `connect_to` runs with `our_type = Client` on a record whose
`to_peer` is `NoConnection`: if the record's `from_peer` is not
`NoConnection` the call panics (the asserted logic error); otherwise
`from_peer` is set to `NotNeeded` and the outbound half is initiated. -/
theorem client_connect_panics_or_sets_not_needed
    (pi : NodeInfo) (sac : Option WireMsg) (maker : Option GroupRef)
    (t : TerminatorId) (cwE : Option Error) (c : Ctx)
    (hclient : c.our_type = OurType.Client) :
    ∀ conn, c.connections pi.peer_addr = some conn →
      conn.to_peer = ToPeer.NoConnection →
      ((conn.from_peer ≠ FromPeer.NoConnection →
        (connect_to pi sac maker t none cwE c).panicked = true
          ∧ (∀ x, (connect_to pi sac maker t none cwE c).ctx.connections x
              = c.connections x)
          ∧ (connect_to pi sac maker t none cwE c).outputs = [])
      ∧ (conn.from_peer = FromPeer.NoConnection →
        (connect_to pi sac maker t none cwE c).panicked = false
          ∧ (cwE = none →
            ∃ conn1, (connect_to pi sac maker t none cwE c).ctx.connections
                pi.peer_addr = some conn1
              ∧ conn1.from_peer = FromPeer.NotNeeded
              ∧ conn1.to_peer
                  = ToPeer.Initiated t pi.peer_cert_der sac.toList))) := by
  intro conn hc hto
  constructor
  · intro hfp
    have hb : conn.from_peer.is_no_connection = false := by
      cases hfpc : conn.from_peer with
      | NoConnection => exact absurd hfpc hfp
      | NotNeeded => rfl
      | Established qc prs => rfl
    refine ⟨?_, fun x => ?_, ?_⟩ <;>
      simp [connect_to, hc, hto, hclient, hb, ToPeer.is_no_connection]
  · intro hfp
    have hpanic : ¬(c.our_type = OurType.Client
        ∧ conn.from_peer.is_no_connection = false) := by
      rintro ⟨-, hb⟩
      rw [hfp] at hb
      simp [FromPeer.is_no_connection] at hb
    constructor
    · cases cwE with
      | some e0 =>
        simp [connect_to, hc, hto, hclient, hfp, hpanic,
          ToPeer.is_no_connection, FromPeer.is_no_connection, handle_connect_err]
      | none =>
        simp [connect_to, hc, hto, hclient, hfp, hpanic,
          ToPeer.is_no_connection, FromPeer.is_no_connection]
    · rintro rfl
      cases hg : conn.bootstrap_group_ref with
      | some g =>
        exact ⟨{ conn with
            from_peer := FromPeer.NotNeeded
            to_peer := ToPeer.Initiated t pi.peer_cert_der sac.toList },
          by simp [connect_to, hc, hto, hclient, hfp, hpanic, hg,
              ToPeer.is_no_connection, FromPeer.is_no_connection, updateConn_self],
          rfl, rfl⟩
      | none =>
        exact ⟨{ conn with
            from_peer := FromPeer.NotNeeded
            bootstrap_group_ref := maker
            to_peer := ToPeer.Initiated t pi.peer_cert_der sac.toList },
          by simp [connect_to, hc, hto, hclient, hfp, hpanic, hg,
              ToPeer.is_no_connection, FromPeer.is_no_connection, updateConn_self],
          rfl, rfl⟩

/-- Closed instance of `client_connect_panics_or_sets_not_needed`: a Client
dialing a fresh-but-recorded address ends with `from_peer = NotNeeded` and
an `Initiated` outbound half. -/
theorem client_connect_panics_or_sets_not_needed_witness :
    ∃ conn1,
      (connect_to ⟨0, [8]⟩ none none 3 none none
          { ctxEmpty with
            our_type := OurType.Client
            connections := updateConn emptyConnections 0
              (some (Connection.new none true)) }).ctx.connections 0 = some conn1
      ∧ conn1.from_peer = FromPeer.NotNeeded
      ∧ conn1.to_peer = ToPeer.Initiated 3 [8] [] :=
  ((client_connect_panics_or_sets_not_needed ⟨0, [8]⟩ none none 3 none
      { ctxEmpty with
        our_type := OurType.Client
        connections := updateConn emptyConnections 0
          (some (Connection.new none true)) }
      rfl (Connection.new none true) rfl rfl).2 rfl).2 rfl

/-! ## Lemmas about the output counters and the write projection -/

theorem count_success_append (l1 l2 : List Output) :
    count_success (l1 ++ l2) = count_success l1 + count_success l2 := by
  simp [count_success, List.filter_append]

theorem count_success_map_write (a : SocketAddr) (l : List WireMsg) :
    count_success (l.map (Output.write a)) = 0 := by
  induction l with
  | nil => rfl
  | cons m l ih => simp [count_success, is_success_event]

theorem count_success_map_wtpc (a : SocketAddr) (l : List WireMsg) :
    count_success (l.map (write_to_peer_connection a)) = 0 := by
  induction l with
  | nil => rfl
  | cons m l ih => simp [count_success, is_success_event, write_to_peer_connection]

theorem count_success_dispatch (p : Peer) (m : WireMsg) :
    count_success (dispatch_wire_msg p m) = 0 := by
  cases m <;> rfl

theorem count_success_flatMap_dispatch (p : Peer) (l : List WireMsg) :
    count_success (l.flatMap (dispatch_wire_msg p)) = 0 := by
  induction l with
  | nil => rfl
  | cons m l ih =>
    simp [List.flatMap_cons, count_success_append, ih, count_success_dispatch]

theorem no_handshake_write_in_dispatch (p : Peer) (l : List WireMsg)
    (a : SocketAddr) (hs : Handshake) :
    Output.write a (WireMsg.Handshake hs) ∉ l.flatMap (dispatch_wire_msg p) := by
  induction l with
  | nil => simp
  | cons m l ih =>
    simp only [List.flatMap_cons, List.mem_append]
    rintro (hm | hm)
    · cases m <;> simp [dispatch_wire_msg] at hm
    · exact ih hm

theorem writes_to_append (a : SocketAddr) (l1 l2 : List Output) :
    writes_to a (l1 ++ l2) = writes_to a l1 ++ writes_to a l2 := by
  simp [writes_to, List.filterMap_append]

theorem writes_to_map_write_self (a : SocketAddr) (l : List WireMsg) :
    writes_to a (l.map (Output.write a)) = l := by
  induction l with
  | nil => rfl
  | cons m l ih => simpa [writes_to] using ih

/-! ## C6: the application handshake branches on the inbound half -/

/-- C6: on QUIC handshake success over an `Initiated` outbound half, the
application handshake is determined by the record's current `from_peer`:
`NoConnection` sends `Handshake(Node)` carrying our complete certificate
and fires no event; `NotNeeded` sends `Handshake(Client)`, fires exactly
one `ConnectedTo`/`BootstrappedTo` event and starts reading inbound
streams; `Established` sends no handshake message (any handshake write in
the outputs can only come from the flushed `pending_sends`) and fires
exactly one event. -/
theorem handshake_branches_on_from_peer (a : SocketAddr) (q : QConn) (c : Ctx)
    (conn : Connection) (t : TerminatorId) (cert : CertDer) (ps : List WireMsg)
    (hc : c.connections a = some conn)
    (hto : conn.to_peer = ToPeer.Initiated t cert ps) :
    (conn.from_peer = FromPeer.NoConnection →
      (handle_new_connection_res a (Except.ok q) c).outputs
          = Output.write a (WireMsg.Handshake (Handshake.Node c.our_complete_cert_der))
              :: ps.map (Output.write a)
        ∧ count_success (handle_new_connection_res a (Except.ok q) c).outputs = 0)
    ∧ (conn.from_peer = FromPeer.NotNeeded →
      (handle_new_connection_res a (Except.ok q) c).outputs
          = Output.write a (WireMsg.Handshake Handshake.Client)
              :: (match conn.bootstrap_group_ref with
                  | some g => [Output.terminate_group g true,
                      Output.event (Event.BootstrappedTo ⟨a, cert⟩)]
                  | none => [Output.event (Event.ConnectedTo (Peer.Node ⟨a, cert⟩))])
              ++ ps.map (Output.write a)
              ++ [Output.read_from_peer a]
        ∧ count_success (handle_new_connection_res a (Except.ok q) c).outputs = 1
        ∧ Output.read_from_peer a ∈ (handle_new_connection_res a (Except.ok q) c).outputs)
    ∧ (∀ qin prs, conn.from_peer = FromPeer.Established qin prs →
      (handle_new_connection_res a (Except.ok q) c).outputs
          = (match conn.bootstrap_group_ref with
              | some g => [Output.terminate_group g true,
                  Output.event (Event.BootstrappedTo ⟨a, cert⟩)]
              | none => [Output.event (Event.ConnectedTo (Peer.Node ⟨a, cert⟩))])
              ++ prs.flatMap (dispatch_wire_msg (Peer.Node ⟨a, cert⟩))
              ++ ps.map (Output.write a)
        ∧ count_success (handle_new_connection_res a (Except.ok q) c).outputs = 1
        ∧ (∀ hs, Output.write a (WireMsg.Handshake hs)
              ∈ (handle_new_connection_res a (Except.ok q) c).outputs →
            WireMsg.Handshake hs ∈ ps)) := by
  refine ⟨?_, ?_, ?_⟩
  · intro hfp
    have houts : (handle_new_connection_res a (Except.ok q) c).outputs
        = Output.write a (WireMsg.Handshake (Handshake.Node c.our_complete_cert_der))
            :: ps.map (Output.write a) := by
      simp [handle_new_connection_res, hc, hto, hfp, write_to_peer_connection]
    refine ⟨houts, ?_⟩
    rw [houts]
    simp [count_success, is_success_event]
  · intro hfp
    cases hg : conn.bootstrap_group_ref with
    | some g =>
      have houts : (handle_new_connection_res a (Except.ok q) c).outputs
          = Output.write a (WireMsg.Handshake Handshake.Client)
              :: [Output.terminate_group g true,
                  Output.event (Event.BootstrappedTo ⟨a, cert⟩)]
              ++ ps.map (Output.write a)
              ++ [Output.read_from_peer a] := by
        simp [handle_new_connection_res, hc, hto, hfp, hg, write_to_peer_connection]
      refine ⟨houts, ?_, ?_⟩
      · rw [houts]
        simp [count_success, is_success_event, List.filter_append,
          count_success_map_write a ps, count_success]
      · rw [houts]; simp
    | none =>
      have houts : (handle_new_connection_res a (Except.ok q) c).outputs
          = Output.write a (WireMsg.Handshake Handshake.Client)
              :: [Output.event (Event.ConnectedTo (Peer.Node ⟨a, cert⟩))]
              ++ ps.map (Output.write a)
              ++ [Output.read_from_peer a] := by
        simp [handle_new_connection_res, hc, hto, hfp, hg, write_to_peer_connection,
          NodeInfo.into]
      refine ⟨houts, ?_, ?_⟩
      · rw [houts]
        simp [count_success, is_success_event, List.filter_append,
          count_success_map_write a ps, count_success]
      · rw [houts]; simp
  · intro qin prs hfp
    have houts : (handle_new_connection_res a (Except.ok q) c).outputs
        = (match conn.bootstrap_group_ref with
            | some g => [Output.terminate_group g true,
                Output.event (Event.BootstrappedTo ⟨a, cert⟩)]
            | none => [Output.event (Event.ConnectedTo (Peer.Node ⟨a, cert⟩))])
            ++ prs.flatMap (dispatch_wire_msg (Peer.Node ⟨a, cert⟩))
            ++ ps.map (Output.write a) := by
      cases hg : conn.bootstrap_group_ref with
      | some g =>
        simp [handle_new_connection_res, hc, hto, hfp, hg, write_to_peer_connection]
      | none =>
        simp [handle_new_connection_res, hc, hto, hfp, hg, write_to_peer_connection,
          NodeInfo.into]
    refine ⟨houts, ?_, ?_⟩
    · rw [houts]
      cases hg : conn.bootstrap_group_ref with
      | some g =>
        rw [count_success_append, count_success_append,
          count_success_flatMap_dispatch, count_success_map_write]
        rfl
      | none =>
        rw [count_success_append, count_success_append,
          count_success_flatMap_dispatch, count_success_map_write]
        rfl
    · intro hs hmem
      rw [houts] at hmem
      simp only [List.mem_append] at hmem
      rcases hmem with (hmem | hmem) | hmem
      · cases hg : conn.bootstrap_group_ref with
        | some g => rw [hg] at hmem; simp at hmem
        | none => rw [hg] at hmem; simp at hmem
      · exact absurd hmem (no_handshake_write_in_dispatch _ _ _ _)
      · rcases List.mem_map.mp hmem with ⟨m, hm, hmw⟩
        cases hmw
        exact hm

/-- Closed instance of `handshake_branches_on_per`: completing the handshake
for the `NotNeeded` (Client) record of `ctxInitNotNeeded` fires exactly one
success event. -/
theorem handshake_branches_on_from_peer_witness :
    count_success (handle_new_connection_res 0 (Except.ok 5)
        ctxInitNotNeeded).outputs = 1 :=
  (((handshake_branches_on_from_peer 0 5 ctxInitNotNeeded connInitNotNeeded
      1 [3, 4] [WireMsg.UserMsg [9]] rfl rfl).2.1) rfl).2.1

/-! ## C7: pending sends are flushed FIFO, then the outbound half commits -/

/-- C7: on QUIC handshake success for an `Initiated` outbound half, every
message in `pending_sends` is written over the new session in FIFO enqueue
order (they form the tail of the session's write stream), after which
`to_peer` is committed to `Established` holding the same peer certificate
bytes that were stored in `Initiated`; moreover `connect_to` seeds
`pending_sends` with the optional pre-queued message, and a user `send`
before establishment appends to `pending_sends`. -/
theorem pending_sends_flushed_fifo_then_established
    (a : SocketAddr) (q : QConn) (c : Ctx) (conn : Connection)
    (t : TerminatorId) (cert : CertDer) (ps : List WireMsg)
    (hc : c.connections a = some conn)
    (hto : conn.to_peer = ToPeer.Initiated t cert ps) :
    (∃ pre, writes_to a (handle_new_connection_res a (Except.ok q) c).outputs
        = pre ++ ps)
    ∧ (∃ conn1, (handle_new_connection_res a (Except.ok q) c).ctx.connections a
          = some conn1
        ∧ conn1.to_peer = ToPeer.Established cert q)
    ∧ (∀ (pi : NodeInfo) (sac : Option WireMsg) (maker : Option GroupRef)
        (t0 : TerminatorId) (c0 : Ctx),
        c0.connections pi.peer_addr = none →
        ∃ conn1, (connect_to pi sac maker t0 none none c0).ctx.connections
              pi.peer_addr = some conn1
          ∧ conn1.to_peer = ToPeer.Initiated t0 pi.peer_cert_der sac.toList)
    ∧ (∀ m, ∃ conn1, (buffer_user_send a m c).1.connections a = some conn1
        ∧ conn1.to_peer = ToPeer.Initiated t cert (ps ++ [m])) := by
  refine ⟨?_, ?_, ?_, ?_⟩
  · cases hfp : conn.from_peer with
    | NoConnection =>
      refine ⟨[WireMsg.Handshake (Handshake.Node c.our_complete_cert_der)], ?_⟩
      have houts : (handle_new_connection_res a (Except.ok q) c).outputs
          = Output.write a (WireMsg.Handshake (Handshake.Node c.our_complete_cert_der))
              :: ps.map (Output.write a) := by
        simp [handle_new_connection_res, hc, hto, hfp, write_to_peer_connection]
      rw [houts]
      simpa [writes_to] using writes_to_map_write_self a ps
    | NotNeeded =>
      cases hg : conn.bootstrap_group_ref with
      | some g =>
        refine ⟨[WireMsg.Handshake Handshake.Client], ?_⟩
        have houts : (handle_new_connection_res a (Except.ok q) c).outputs
            = Output.write a (WireMsg.Handshake Handshake.Client)
                :: [Output.terminate_group g true,
                    Output.event (Event.BootstrappedTo ⟨a, cert⟩)]
                ++ ps.map (Output.write a)
                ++ [Output.read_from_peer a] := by
          simp [handle_new_connection_res, hc, hto, hfp, hg, write_to_peer_connection]
        rw [houts]
        simp [writes_to, List.filterMap_append]
        simpa [writes_to] using writes_to_map_write_self a ps
      | none =>
        refine ⟨[WireMsg.Handshake Handshake.Client], ?_⟩
        have houts : (handle_new_connection_res a (Except.ok q) c).outputs
            = Output.write a (WireMsg.Handshake Handshake.Client)
                :: [Output.event (Event.ConnectedTo (Peer.Node ⟨a, cert⟩))]
                ++ ps.map (Output.write a)
                ++ [Output.read_from_peer a] := by
          simp [handle_new_connection_res, hc, hto, hfp, hg, write_to_peer_connection,
            NodeInfo.into]
        rw [houts]
        simp [writes_to, List.filterMap_append]
        simpa [writes_to] using writes_to_map_write_self a ps
    | Established qin prs =>
      refine ⟨writes_to a ((match conn.bootstrap_group_ref with
          | some g => [Output.terminate_group g true,
              Output.event (Event.BootstrappedTo ⟨a, cert⟩)]
          | none => [Output.event (Event.ConnectedTo (Peer.Node ⟨a, cert⟩))])
          ++ prs.flatMap (dispatch_wire_msg (Peer.Node ⟨a, cert⟩))), ?_⟩
      have houts : (handle_new_connection_res a (Except.ok q) c).outputs
          = (match conn.bootstrap_group_ref with
              | some g => [Output.terminate_group g true,
                  Output.event (Event.BootstrappedTo ⟨a, cert⟩)]
              | none => [Output.event (Event.ConnectedTo (Peer.Node ⟨a, cert⟩))])
              ++ prs.flatMap (dispatch_wire_msg (Peer.Node ⟨a, cert⟩))
              ++ ps.map (Output.write a) := by
        cases hg : conn.bootstrap_group_ref with
        | some g =>
          simp [handle_new_connection_res, hc, hto, hfp, hg, write_to_peer_connection]
        | none =>
          simp [handle_new_connection_res, hc, hto, hfp, hg, write_to_peer_connection,
            NodeInfo.into]
      rw [houts, writes_to_append, writes_to_map_write_self]
  · cases hfp : conn.from_peer with
    | NoConnection =>
      exact ⟨{ conn with to_peer := ToPeer.Established cert q },
        by simp [handle_new_connection_res, hc, hto, hfp, updateConn_self], rfl⟩
    | NotNeeded =>
      cases hg : conn.bootstrap_group_ref with
      | some g =>
        exact ⟨{ conn with
            to_peer := ToPeer.Established cert q
            bootstrap_group_ref := none },
          by simp [handle_new_connection_res, hc, hto, hfp, hg, updateConn_self], rfl⟩
      | none =>
        exact ⟨{ conn with to_peer := ToPeer.Established cert q },
          by simp [handle_new_connection_res, hc, hto, hfp, hg, updateConn_self], rfl⟩
    | Established qin prs =>
      cases hg : conn.bootstrap_group_ref with
      | some g =>
        exact ⟨{ conn with
            to_peer := ToPeer.Established cert q
            from_peer := FromPeer.Established qin []
            bootstrap_group_ref := none },
          by simp [handle_new_connection_res, hc, hto, hfp, hg, updateConn_self], rfl⟩
      | none =>
        exact ⟨{ conn with
            to_peer := ToPeer.Established cert q
            from_peer := FromPeer.Established qin [] },
          by simp [handle_new_connection_res, hc, hto, hfp, hg, updateConn_self], rfl⟩
  · intro pi sac maker t0 c0 hc0
    cases hourt : c0.our_type with
    | Node =>
      exact ⟨{ Connection.new maker true with
          to_peer := ToPeer.Initiated t0 pi.peer_cert_der sac.toList },
        by simp [connect_to, hc0, hourt, Connection.new, ToPeer.is_no_connection,
            FromPeer.is_no_connection, updateConn_self],
        rfl⟩
    | Client =>
      exact ⟨{ Connection.new maker true with
          from_peer := FromPeer.NotNeeded
          to_peer := ToPeer.Initiated t0 pi.peer_cert_der sac.toList },
        by simp [connect_to, hc0, hourt, Connection.new, ToPeer.is_no_connection,
            FromPeer.is_no_connection, updateConn_self],
        rfl⟩
  · intro m
    exact ⟨{ conn with to_peer := ToPeer.Initiated t cert (ps ++ [m]) },
      by simp [buffer_user_send, hc, hto, updateConn_self], rfl⟩

/-- Closed instance of `pending_sends_flushed_fifo_then_established`: the
buffered send of `ctxInitNotNeeded` forms the tail of the write stream. -/
theorem pending_sends_flushed_fifo_then_established_witness :
    ∃ pre, writes_to 0 (handle_new_connection_res 0 (Except.ok 5)
        ctxInitNotNeeded).outputs = pre ++ [WireMsg.UserMsg [9]] :=
  (pending_sends_flushed_fifo_then_established 0 5 ctxInitNotNeeded
    connInitNotNeeded 1 [3, 4] [WireMsg.UserMsg [9]] rfl rfl).1

/-! ## C5: at most one success event per record lifetime

The argument is a potential-function invariant: every transition changes
`succ_score` of the record by exactly the number of success events it
emits, so along a lifetime that starts below the ready state the total
number of success events is at most one. -/

theorem count_success_nil : count_success [] = 0 := rfl

theorem count_success_cons_write (a : SocketAddr) (m : WireMsg) (l : List Output) :
    count_success (Output.write a m :: l) = count_success l := by
  simp [count_success, is_success_event]

theorem count_success_cons_terminate (g : GroupRef) (s : Bool) (l : List Output) :
    count_success (Output.terminate_group g s :: l) = count_success l := by
  simp [count_success, is_success_event]

theorem count_success_cons_read (a : SocketAddr) (l : List Output) :
    count_success (Output.read_from_peer a :: l) = count_success l := by
  simp [count_success, is_success_event]

theorem count_success_cons_connected (p : Peer) (l : List Output) :
    count_success (Output.event (Event.ConnectedTo p) :: l)
      = count_success l + 1 := by
  simp [count_success, is_success_event]

theorem count_success_cons_bootstrapped (ni : NodeInfo) (l : List Output) :
    count_success (Output.event (Event.BootstrappedTo ni) :: l)
      = count_success l + 1 := by
  simp [count_success, is_success_event]

theorem count_success_cons_unsent (a : SocketAddr) (m : List Nat) (l : List Output) :
    count_success (Output.event (Event.UnsentUserMessage a m) :: l)
      = count_success l := by
  simp [count_success, is_success_event]

theorem count_success_connect_failure (a : SocketAddr) (e : Error) :
    count_success (connect_failure_events a e) = 0 := rfl

theorem succ_score_le_one (oc : Option Connection) : succ_score oc ≤ 1 := by
  cases oc with
  | none => simp [succ_score]
  | some conn =>
    simp only [succ_score]
    split <;> simp

theorem handle_connect_err_succ (a : SocketAddr) (e : Error) (c : Ctx)
    (hkeep : (c.connections a).isSome →
      ((handle_connect_err a e c).1.connections a).isSome) :
    succ_score ((handle_connect_err a e c).1.connections a)
      = succ_score (c.connections a)
        + count_success (handle_connect_err a e c).2 := by
  by_cases hd : e.is_duplicate = true
  · simp [handle_connect_err, hd, count_success_nil]
  · have hd' : e.is_duplicate = false := by simpa using hd
    cases hcc : c.connections a with
    | none =>
      simp [handle_connect_err, hd', updateConn_self, succ_score,
        count_success_connect_failure]
    | some conn =>
      exfalso
      have h1 := hkeep (by rw [hcc]; rfl)
      simp [handle_connect_err, hd', updateConn_self] at h1

theorem connect_to_succ (pi : NodeInfo) (sac : Option WireMsg)
    (maker : Option GroupRef) (t : TerminatorId) (cfgE cwE : Option Error)
    (c : Ctx)
    (hkeep : (c.connections pi.peer_addr).isSome →
      ((connect_to pi sac maker t cfgE cwE c).ctx.connections pi.peer_addr).isSome) :
    succ_score ((connect_to pi sac maker t cfgE cwE c).ctx.connections pi.peer_addr)
      = succ_score (c.connections pi.peer_addr)
        + count_success (connect_to pi sac maker t cfgE cwE c).outputs := by
  cases cfgE with
  | some e => exact handle_connect_err_succ pi.peer_addr e c hkeep
  | none =>
    cases hcc : c.connections pi.peer_addr with
    | none =>
      cases cwE with
      | none =>
        simp [connect_to, hcc, Connection.new, ToPeer.is_no_connection,
          FromPeer.is_no_connection, succ_score, success_ready, updateConn_self,
          count_success_nil]
      | some e =>
        by_cases hd : e.is_duplicate = true
        · simp [connect_to, hcc, Connection.new, ToPeer.is_no_connection,
            FromPeer.is_no_connection, handle_connect_err, hd, succ_score,
            success_ready, updateConn_self, count_success_nil]
        · have hd' : e.is_duplicate = false := by simpa using hd
          simp [connect_to, hcc, Connection.new, ToPeer.is_no_connection,
            FromPeer.is_no_connection, handle_connect_err, hd', succ_score,
            success_ready, updateConn_self, count_success_connect_failure]
    | some conn =>
      cases hto : conn.to_peer with
      | NoConnection =>
        by_cases hp : c.our_type = OurType.Client
            ∧ conn.from_peer.is_no_connection = false
        · simp [connect_to, hcc, hto, ToPeer.is_no_connection, hp, succ_score,
            success_ready, count_success_nil]
        · cases cwE with
          | none =>
            simp [connect_to, hcc, hto, ToPeer.is_no_connection, hp, succ_score,
              success_ready, updateConn_self, count_success_nil]
          | some e =>
            by_cases hd : e.is_duplicate = true
            · simp [connect_to, hcc, hto, ToPeer.is_no_connection, hp,
                handle_connect_err, hd, succ_score, success_ready,
                updateConn_self, count_success_nil]
            · have hd' : e.is_duplicate = false := by simpa using hd
              exfalso
              have h1 := hkeep (by rw [hcc]; rfl)
              simp [connect_to, hcc, hto, ToPeer.is_no_connection, hp,
                handle_connect_err, hd', updateConn_self] at h1
      | NotNeeded =>
        simp [connect_to, hcc, hto, ToPeer.is_no_connection, handle_connect_err,
          Error.is_duplicate, succ_score, success_ready, updateConn_self,
          count_success_nil]
      | Initiated t0 cert0 ps0 =>
        simp [connect_to, hcc, hto, ToPeer.is_no_connection, handle_connect_err,
          Error.is_duplicate, succ_score, success_ready, updateConn_self,
          count_success_nil]
      | Established cert0 q0 =>
        simp [connect_to, hcc, hto, ToPeer.is_no_connection, handle_connect_err,
          Error.is_duplicate, succ_score, success_ready, updateConn_self,
          count_success_nil]

theorem handle_new_connection_res_succ (a : SocketAddr)
    (res : Except Error QConn) (c : Ctx)
    (hkeep : (c.connections a).isSome →
      ((handle_new_connection_res a res c).ctx.connections a).isSome) :
    succ_score ((handle_new_connection_res a res c).ctx.connections a)
      = succ_score (c.connections a)
        + count_success (handle_new_connection_res a res c).outputs := by
  cases res with
  | error e => exact handle_connect_err_succ a e c hkeep
  | ok q =>
    cases hcc : c.connections a with
    | none => simp [handle_new_connection_res, hcc, count_success_nil]
    | some conn =>
      cases hto : conn.to_peer with
      | Initiated t cert ps =>
        cases hfp : conn.from_peer with
        | NoConnection =>
          simp [handle_new_connection_res, hcc, hto, hfp, write_to_peer_connection,
            updateConn_self, succ_score, success_ready, FromPeer.is_no_connection,
            count_success_cons_write, count_success_map_write,
            count_success_map_wtpc]
        | NotNeeded =>
          cases hg : conn.bootstrap_group_ref with
          | some g =>
            simp [handle_new_connection_res, hcc, hto, hfp, hg,
              write_to_peer_connection, updateConn_self, succ_score, success_ready,
              FromPeer.is_no_connection, count_success_cons_write,
              count_success_cons_terminate, count_success_cons_bootstrapped,
              count_success_append, count_success_map_write, count_success_map_wtpc,
              count_success_cons_read, count_success_nil]
          | none =>
            simp [handle_new_connection_res, hcc, hto, hfp, hg,
              write_to_peer_connection, updateConn_self, succ_score, success_ready,
              FromPeer.is_no_connection, NodeInfo.into, count_success_cons_write,
              count_success_cons_connected, count_success_append,
              count_success_map_write, count_success_map_wtpc,
              count_success_cons_read, count_success_nil]
        | Established qin prs =>
          cases hg : conn.bootstrap_group_ref with
          | some g =>
            simp [handle_new_connection_res, hcc, hto, hfp, hg,
              write_to_peer_connection, updateConn_self, succ_score, success_ready,
              FromPeer.is_no_connection, count_success_cons_terminate,
              count_success_cons_bootstrapped, count_success_append,
              count_success_map_write, count_success_map_wtpc,
              count_success_flatMap_dispatch, count_success_nil]
          | none =>
            simp [handle_new_connection_res, hcc, hto, hfp, hg,
              write_to_peer_connection, updateConn_self, succ_score, success_ready,
              FromPeer.is_no_connection, NodeInfo.into,
              count_success_cons_connected, count_success_append,
              count_success_map_write, count_success_map_wtpc,
              count_success_flatMap_dispatch, count_success_nil]
      | NoConnection =>
        simp [handle_new_connection_res, hcc, hto, count_success_nil]
      | NotNeeded =>
        simp [handle_new_connection_res, hcc, hto, count_success_nil]
      | Established cert0 q0 =>
        simp [handle_new_connection_res, hcc, hto, count_success_nil]

theorem handle_new_conn_succ (q : QConn) (a : SocketAddr) (c : Ctx) :
    succ_score ((handle_new_conn q a c).1.connections a)
      = succ_score (c.connections a)
        + count_success (handle_new_conn q a c).2 := by
  cases hcc : c.connections a with
  | none =>
    simp [handle_new_conn, hcc, Connection.new, FromPeer.is_no_connection,
      updateConn_self, succ_score, success_ready, count_success_cons_read,
      count_success_nil]
  | some conn =>
    cases hfp : conn.from_peer with
    | NoConnection =>
      cases hto : conn.to_peer with
      | Established cert qc =>
        cases hg : conn.bootstrap_group_ref with
        | some g =>
          simp [handle_new_conn, hcc, hfp, hto, hg, FromPeer.is_no_connection,
            updateConn_self, succ_score, success_ready,
            count_success_cons_terminate, count_success_cons_bootstrapped,
            count_success_append, count_success_cons_read, count_success_nil]
        | none =>
          simp [handle_new_conn, hcc, hfp, hto, hg, FromPeer.is_no_connection,
            updateConn_self, succ_score, success_ready, NodeInfo.into,
            count_success_cons_connected, count_success_append,
            count_success_cons_read, count_success_nil]
      | NoConnection =>
        simp [handle_new_conn, hcc, hfp, hto, FromPeer.is_no_connection,
          updateConn_self, succ_score, success_ready, count_success_cons_read,
          count_success_nil]
      | NotNeeded =>
        simp [handle_new_conn, hcc, hfp, hto, FromPeer.is_no_connection,
          updateConn_self, succ_score, success_ready, count_success_cons_read,
          count_success_nil]
      | Initiated t cert ps =>
        simp [handle_new_conn, hcc, hfp, hto, FromPeer.is_no_connection,
          updateConn_self, succ_score, success_ready, count_success_cons_read,
          count_success_nil]
    | NotNeeded =>
      simp [handle_new_conn, hcc, hfp, FromPeer.is_no_connection,
        count_success_nil]
    | Established qc prs =>
      simp [handle_new_conn, hcc, hfp, FromPeer.is_no_connection,
        count_success_nil]

theorem buffer_user_send_succ (a : SocketAddr) (m : WireMsg) (c : Ctx) :
    succ_score ((buffer_user_send a m c).1.connections a)
      = succ_score (c.connections a)
        + count_success (buffer_user_send a m c).2 := by
  cases hcc : c.connections a with
  | none => simp [buffer_user_send, hcc, count_success_cons_unsent, count_success_nil]
  | some conn =>
    cases hto : conn.to_peer with
    | Initiated t cert ps =>
      simp [buffer_user_send, hcc, hto, updateConn_self, succ_score, success_ready,
        count_success_nil]
    | Established cert q =>
      simp [buffer_user_send, hcc, hto, write_to_peer_connection,
        count_success_cons_write, count_success_nil]
    | NoConnection =>
      simp [buffer_user_send, hcc, hto, count_success_cons_unsent, count_success_nil]
    | NotNeeded =>
      simp [buffer_user_send, hcc, hto, count_success_cons_unsent, count_success_nil]

theorem step_succ (a : SocketAddr) (c : Ctx) (outs : List Output) (c1 : Ctx)
    (hs : Step a c outs c1)
    (hkeep : (c.connections a).isSome → (c1.connections a).isSome) :
    succ_score (c1.connections a)
      = succ_score (c.connections a) + count_success outs := by
  cases hs with
  | connect pi sac maker t cfgE cwE c hpa =>
    subst hpa
    exact connect_to_succ pi sac maker t cfgE cwE c hkeep
  | handshake_result res c =>
    exact handle_new_connection_res_succ a res c hkeep
  | inbound q c => exact handle_new_conn_succ q a c
  | connect_err e c => exact handle_connect_err_succ a e c hkeep
  | user_send m c => exact buffer_user_send_succ a m c

theorem lifetrace_succ (a : SocketAddr) (c c2 : Ctx) (outs : List Output)
    (ht : LifeTrace a c outs c2) :
    succ_score (c2.connections a)
      = succ_score (c.connections a) + count_success outs := by
  induction ht with
  | nil c => simp [count_success_nil]
  | cons c ca cb outs rest hs hkeep ht ih =>
    rw [count_success_append, ih, step_succ a c outs ca hs hkeep]
    omega

theorem two_le_length_of_mem_ne {α : Type} {l : List α} {x y : α}
    (hx : x ∈ l) (hy : y ∈ l) (hne : x ≠ y) : 2 ≤ l.length := by
  cases l with
  | nil => simp at hx
  | cons a l1 =>
    cases l1 with
    | nil =>
      simp at hx hy
      exact absurd (hx.trans hy.symm) hne
    | cons b l2 => simp

/-- C5: along any run of transitions targeting address `a` within a single
record lifetime (the record is never removed) that starts with the record
below the success-ready state, at most one successful-connection event is
emitted in total, and `ConnectedTo` and `BootstrappedTo` never both occur —
regardless of whether the event fires on the connect completion path or on
the listen path. -/
theorem at_most_one_success_event_per_lifetime (a : SocketAddr) (c c2 : Ctx)
    (outs : List Output) (ht : LifeTrace a c outs c2)
    (hstart : succ_score (c.connections a) = 0) :
    count_success outs ≤ 1
    ∧ ∀ p ni, Output.event (Event.ConnectedTo p) ∈ outs →
        Output.event (Event.BootstrappedTo ni) ∈ outs → False := by
  have h := lifetrace_succ a c c2 outs ht
  rw [hstart, Nat.zero_add] at h
  have hle : count_success outs ≤ 1 := by
    rw [← h]
    exact succ_score_le_one _
  refine ⟨hle, ?_⟩
  intro p ni hcp hbp
  have hxc : Output.event (Event.ConnectedTo p) ∈ outs.filter is_success_event :=
    List.mem_filter.mpr ⟨hcp, rfl⟩
  have hxb : Output.event (Event.BootstrappedTo ni) ∈ outs.filter is_success_event :=
    List.mem_filter.mpr ⟨hbp, rfl⟩
  have h2 : 2 ≤ count_success outs :=
    two_le_length_of_mem_ne hxc hxb (by simp)
  omega

/-- Closed instance of `at_most_one_success_event_per_lifetime`: the
one-step lifetime that completes the handshake of `ctxInitNotNeeded`
emits at most one success event. -/
theorem at_most_one_success_event_per_lifetime_witness :
    count_success ((handle_new_connection_res 0 (Except.ok 5)
        ctxInitNotNeeded).outputs ++ []) ≤ 1 :=
  (at_most_one_success_event_per_lifetime 0 ctxInitNotNeeded
    (handle_new_connection_res 0 (Except.ok 5) ctxInitNotNeeded).ctx
    ((handle_new_connection_res 0 (Except.ok 5) ctxInitNotNeeded).outputs ++ [])
    (LifeTrace.cons _ _ _ _ _
      (Step.handshake_result (Except.ok 5) ctxInitNotNeeded)
      (fun _ => by decide)
      (LifeTrace.nil _))
    (by decide)).1

end QuicP2p
